import Mathlib

/-!
The library mylibrary: `Food`, `Cookie` and the entry point

A shallow embedding of `mylibrary.hpp`, `food.cpp`, `cookie.cpp` and `main.cpp`.

* `std::cout` is the sequence of characters inserted into it so far (a `String`);
  every operation that writes takes the stream and returns the stream.
* An object is a record of its data members.  `makesSound` is the only data member of
  the source.  The record also carries `stores`, a ghost history of the values that
  have been assigned to `makesSound` with `operator=`, oldest first; no source
  statement reads it.
* A member function takes `this` and the stream and returns both (`eatMe` is not
  `const` in the source, so the object it leaves behind is part of its result).
* Beside each `eatMe` stands its event sequence: the member function entered and the
  insertions of its body, one event for each `<<` of the source line, in order.  A call of
  a member function inside a body would contribute the events of the callee at that
  place, starting with the callee being entered.  Running the events on the stream is
  proved to be the member function.
-/

namespace mylibrary

/-- The insertion `os << s` of a `std::string` or of a string literal: the characters of
`s` are appended to the stream. -/
def ins (os : String) (s : String) : String :=
  os ++ s

/-- The manipulator `os << std::endl`: inserts a newline character and flushes; flushing
does not change the character sequence. -/
def endl (os : String) : String :=
  os ++ "\n"

/-- The member functions `eatMe` of the two classes. -/
inductive Fn where
  | foodEatMe
  | cookieEatMe
  deriving DecidableEq

/-- What happens, in order, while a member function runs: member function `fn` is entered,
the string `s` is inserted into `std::cout` (`<< s`), `std::endl` is inserted. -/
inductive Event where
  | enter (fn : Fn)
  | insert (s : String)
  | insertEndl
  deriving DecidableEq

/-- The effect of one event on the stream; entering a member function writes nothing. -/
def Event.apply (os : String) : Event → String
  | Event.enter _ => os
  | Event.insert s => ins os s
  | Event.insertEndl => endl os

namespace food

/-- The class `mylibrary::food::Food`: the protected member `makesSound`, and the ghost
history `stores` of the assignments made to it. -/
structure Food where
  makesSound : String
  stores : List String
  deriving DecidableEq

/-- The storage of a `Food` before any constructor body has run: the `std::string`
member is default-initialised to the empty string and nothing has been assigned. -/
def Food.fresh : Food :=
  { makesSound := "", stores := [] }

/-- The statement `this->makesSound = v;`. -/
def Food.assignMakesSound (this : Food) (v : String) : Food :=
  { makesSound := v, stores := this.stores ++ [v] }

/-- The body of `Food::Food()`, run on the storage `this`. -/
def Food.ctorBody (this : Food) : Food :=
  this.assignMakesSound "food"

/-- The constructor `Food::Food()`: member initialisation, then the body.  (Named `ctor`:
inside the namespace of the record a second `Food` would shadow the type.) -/
def Food.ctor : Food :=
  Food.ctorBody Food.fresh

/-- The member function `void Food::eatMe()`. -/
def Food.eatMe (this : Food) (cout : String) : Food × String :=
  (this, endl (ins (ins (ins cout this.makesSound) ", ") this.makesSound))

end food

namespace cookie

open food

/-- The class `mylibrary::cookie::Cookie : public mylibrary::food::Food`; it declares no
data member of its own. -/
structure Cookie extends Food where
  deriving DecidableEq

/-- The body of `Cookie::Cookie()`, run on an object whose base part is constructed. -/
def Cookie.ctorBody (this : Cookie) : Cookie :=
  { toFood := this.toFood.assignMakesSound "crunch" }

/-- The constructor `Cookie::Cookie()`: the base class constructor `Food::Food()` runs
first (it is not named in the source, the language calls it), then the body. -/
def Cookie.ctor : Cookie :=
  Cookie.ctorBody { toFood := Food.ctor }

/-- The member function `void Cookie::eatMe()`. -/
def Cookie.eatMe (this : Cookie) (cout : String) : Cookie × String :=
  (this,
    endl (ins (ins (ins (ins (ins (ins cout this.makesSound) ", ") this.makesSound) ", ")
      this.makesSound) "... Can I have some more!?"))

/-- The call `c.Food::eatMe()` (equally `static_cast<Food&>(c).eatMe()`): `eatMe` is not
`virtual`, so the base class function runs, on the base part of the object. -/
def Cookie.baseEatMe (this : Cookie) (cout : String) : Cookie × String :=
  let r := this.toFood.eatMe cout
  ({ toFood := r.1 }, r.2)

end cookie

namespace program

open food cookie

/-- The entry point `int main(int nArgs, char** vArgs)`, run on a standard output that
already holds `cout`; it returns the exit code and the standard output. -/
def main (nArgs : Int) (vArgs : List String) (cout : String) : Int × String :=
  let f := Food.ctor
  let c := Cookie.ctor
  let r1 := f.eatMe cout
  let r2 := c.eatMe r1.2
  (0, r2.2)

end program

/-! Drivers: sequences of calls on one object -/

namespace food

/-- One call `f.eatMe()` on the pair (object, standard output). -/
def Food.callEatMe (st : Food × String) : Food × String :=
  st.1.eatMe st.2

end food

namespace cookie

/-- One call `c.eatMe()` on the pair (object, standard output). -/
def Cookie.callEatMe (st : Cookie × String) : Cookie × String :=
  st.1.eatMe st.2

/-- The member functions that can be called on a constructed `Cookie`. -/
inductive Call where
  | eatMe
  | baseEatMe
  deriving DecidableEq

/-- One call on the pair (object, standard output). -/
def Cookie.call (st : Cookie × String) : Call → Cookie × String
  | Call.eatMe => st.1.eatMe st.2
  | Call.baseEatMe => st.1.baseEatMe st.2

/-- A sequence of calls, in order. -/
def Cookie.calls (st : Cookie × String) (cs : List Call) : Cookie × String :=
  cs.foldl Cookie.call st

end cookie

end mylibrary

/-! Theorems -/

namespace mylibrary

open food cookie program

/-- `Food::eatMe` returns the object it was called on. -/
theorem food_eatMe_fst (this : Food) (cout : String) : (this.eatMe cout).1 = this :=
  rfl

/-- `Cookie::eatMe` returns the object it was called on. -/
theorem cookie_eatMe_fst (this : Cookie) (cout : String) : (this.eatMe cout).1 = this :=
  rfl

/-- The text `Food::eatMe` leaves on the stream. -/
theorem food_eatMe_snd (this : Food) (cout : String) :
    (this.eatMe cout).2 = cout ++ (this.makesSound ++ ", " ++ this.makesSound ++ "\n") := by
  simp [Food.eatMe, ins, endl, String.append_assoc]

/-- The text `Cookie::eatMe` leaves on the stream. -/
theorem cookie_eatMe_snd (this : Cookie) (cout : String) :
    (this.eatMe cout).2 = cout ++ (this.makesSound ++ ", " ++ this.makesSound ++ ", " ++
      this.makesSound ++ "... Can I have some more!?" ++ "\n") := by
  simp [Cookie.eatMe, ins, endl, String.append_assoc]

/-- C1: run on an empty standard output, `main` leaves on it exactly the line
`food, food` and then the line `crunch, crunch, crunch... Can I have some more!?`, each
ended by a newline, whatever its arguments. -/
theorem main_output (nArgs : Int) (vArgs : List String) :
    (main nArgs vArgs "").2 =
      "food, food\ncrunch, crunch, crunch... Can I have some more!?\n" := by
  rfl

/-- C2: for every argument count and argument vector `main` returns exit code 0, and its
exit code and standard output are those of any other argument count and vector (in
particular of the run without extra arguments). -/
theorem main_ignores_arguments (nArgs nArgs0 : Int) (vArgs vArgs0 : List String)
    (cout : String) :
    (main nArgs vArgs cout).1 = 0 ∧ main nArgs vArgs cout = main nArgs0 vArgs0 cout :=
  ⟨rfl, rfl⟩

/-- C3: one call of `Food::eatMe` on a freshly constructed `Food` appends exactly
`food, food` and a newline to standard output. -/
theorem food_eatMe_fresh (cout : String) :
    (Food.ctor.eatMe cout).2 = cout ++ "food, food" ++ "\n" := by
  have e : Food.ctor.makesSound ++ ", " ++ Food.ctor.makesSound ++ "\n"
      = "food, food" ++ "\n" := by decide
  rw [food_eatMe_snd, e, String.append_assoc]

/-- C4: one call of `Cookie::eatMe` on a freshly constructed `Cookie` appends exactly
`crunch, crunch, crunch... Can I have some more!?` and a newline to standard output. -/
theorem cookie_eatMe_fresh (cout : String) :
    (Cookie.ctor.eatMe cout).2 =
      cout ++ "crunch, crunch, crunch... Can I have some more!?" ++ "\n" := by
  have e : Cookie.ctor.makesSound ++ ", " ++ Cookie.ctor.makesSound ++ ", " ++
      Cookie.ctor.makesSound ++ "... Can I have some more!?" ++ "\n"
      = "crunch, crunch, crunch... Can I have some more!?" ++ "\n" := by decide
  rw [cookie_eatMe_snd, e, String.append_assoc]

/-- One more copy of a line at the end of `n` copies. -/
theorem join_replicate_succ (n : Nat) (line : String) :
    String.join (List.replicate (n + 1) line) = String.join (List.replicate n line) ++ line := by
  apply String.ext
  simp [List.replicate_succ']

/-- C5: for every `N`, `N` calls of `Food::eatMe` in a row on a fresh `Food` append `N`
copies of the line `food, food`, `N` calls of `Cookie::eatMe` in a row on a fresh `Cookie`
append `N` copies of the line `crunch, crunch, crunch... Can I have some more!?`, the
object is each time the fresh one again, and a call of either `eatMe` on any object
leaves `makesSound` as it was. -/
theorem eatMe_repeatable (N : Nat) (cout : String) :
    Food.callEatMe^[N] (Food.ctor, cout)
        = (Food.ctor, cout ++ String.join (List.replicate N "food, food\n")) ∧
      Cookie.callEatMe^[N] (Cookie.ctor, cout)
        = (Cookie.ctor, cout ++ String.join
            (List.replicate N "crunch, crunch, crunch... Can I have some more!?\n")) ∧
      (∀ (f : Food) (out : String), (f.eatMe out).1.makesSound = f.makesSound) ∧
      (∀ (c : Cookie) (out : String), (c.eatMe out).1.makesSound = c.makesSound) := by
  refine ⟨?_, ?_, fun _ _ => rfl, fun _ _ => rfl⟩
  · induction N with
    | zero => simp [String.join]
    | succ n ih =>
      rw [Function.iterate_succ_apply', ih, join_replicate_succ, ← String.append_assoc]
      have e : Food.ctor.makesSound ++ ", " ++ Food.ctor.makesSound ++ "\n"
          = "food, food\n" := by decide
      apply Prod.ext
      · rfl
      · show (Food.ctor.eatMe _).2 = _
        rw [food_eatMe_snd, e, String.append_assoc]
  · induction N with
    | zero => simp [String.join]
    | succ n ih =>
      rw [Function.iterate_succ_apply', ih, join_replicate_succ, ← String.append_assoc]
      have e : Cookie.ctor.makesSound ++ ", " ++ Cookie.ctor.makesSound ++ ", " ++
          Cookie.ctor.makesSound ++ "... Can I have some more!?" ++ "\n"
          = "crunch, crunch, crunch... Can I have some more!?\n" := by decide
      apply Prod.ext
      · rfl
      · show (Cookie.ctor.eatMe _).2 = _
        rw [cookie_eatMe_snd, e, String.append_assoc]

/-- Two streams that extend the same prior content by different texts are different. -/
theorem append_ne_of_ne (p a b : String) (h : a ≠ b) : p ++ a ≠ p ++ b := by
  intro e
  apply h
  apply String.ext
  have e2 := congrArg String.data e
  simpa using e2

/-- C7: the text `Cookie::eatMe` writes on a fresh `Cookie` differs from the text
`Food::eatMe` writes on a fresh `Food`, on an empty standard output and after every prior
content. -/
theorem cookie_text_ne_food_text (cout : String) :
    (Cookie.ctor.eatMe "").2 ≠ (Food.ctor.eatMe "").2 ∧
      (Cookie.ctor.eatMe cout).2 ≠ (Food.ctor.eatMe cout).2 := by
  refine ⟨by decide, ?_⟩
  rw [cookie_eatMe_snd, food_eatMe_snd]
  exact append_ne_of_ne _ _ _ (by decide)

/-- C9: `Food::eatMe` called on a freshly constructed `Cookie` appends `crunch, crunch`
and a newline, which is neither what `Cookie::eatMe` appends on that object nor what
`Food::eatMe` appends on a fresh `Food`; the object is left as it was. -/
theorem base_eatMe_on_cookie (cout : String) :
    (Cookie.ctor.baseEatMe cout).2 = cout ++ "crunch, crunch" ++ "\n" ∧
      (Cookie.ctor.baseEatMe cout).2 ≠ (Cookie.ctor.eatMe cout).2 ∧
      (Cookie.ctor.baseEatMe cout).2 ≠ (Food.ctor.eatMe cout).2 ∧
      (Cookie.ctor.baseEatMe cout).1 = Cookie.ctor := by
  have h : (Cookie.ctor.baseEatMe cout).2 = cout ++ "crunch, crunch\n" := by
    show (Cookie.ctor.toFood.eatMe cout).2 = _
    exact (food_eatMe_snd _ _).trans (congrArg (fun t => cout ++ t) (by decide))
  refine ⟨?_, ?_, ?_, rfl⟩
  · rw [h, String.append_assoc]
    exact congrArg (fun t => cout ++ t) (by decide)
  · rw [h, cookie_eatMe_snd]
    exact append_ne_of_ne _ _ _ (by decide)
  · rw [h, food_eatMe_snd]
    exact append_ne_of_ne _ _ _ (by decide)

/-- C10: for every object and every prior content `cout` of standard output,
`Food::eatMe` leaves standard output equal to `cout`, the value of `makesSound`, `, `, the
value again and a newline, and `Cookie::eatMe` leaves it equal to `cout`, the value, `, `,
the value, `, `, the value, `... Can I have some more!?` and a newline. -/
theorem eatMe_appends (f : Food) (c : Cookie) (cout : String) :
    (f.eatMe cout).2 = cout ++ f.makesSound ++ ", " ++ f.makesSound ++ "\n" ∧
      (c.eatMe cout).2 = cout ++ c.makesSound ++ ", " ++ c.makesSound ++ ", " ++
        c.makesSound ++ "... Can I have some more!?" ++ "\n" :=
  ⟨rfl, rfl⟩

/-- Every member function call on a `Cookie` returns the object it was called on. -/
theorem cookie_call_fst (st : Cookie × String) (k : Call) : (Cookie.call st k).1 = st.1 := by
  cases k <;> rfl

/-- A sequence of member function calls on a `Cookie` returns the object it started on. -/
theorem cookie_calls_fst (cs : List Call) (st : Cookie × String) :
    (Cookie.calls st cs).1 = st.1 := by
  induction cs generalizing st with
  | nil => rfl
  | cons k ks ih =>
    show (Cookie.calls (Cookie.call st k) ks).1 = st.1
    rw [ih, cookie_call_fst]

/-- Repeated calls of `Food::eatMe` return the object they started on. -/
theorem food_iterate_fst (N : Nat) (st : Food × String) : (Food.callEatMe^[N] st).1 = st.1 := by
  induction N with
  | zero => rfl
  | succ n ih =>
    rw [Function.iterate_succ_apply']
    exact ih

/-- C6, as stated, fails: while a `Cookie` is constructed `makesSound` is assigned twice,
first `food` by the inherited `Food` constructor and then `crunch` by the body of the
`Cookie` constructor, so it is not set exactly once. -/
theorem cookie_makesSound_set_twice :
    Cookie.ctor.stores = ["food", "crunch"] ∧ ¬ (Cookie.ctor.stores.length = 1) := by
  decide

/-- C6, amended: constructing a `Food` assigns `makesSound` exactly once (`food`);
constructing a `Cookie` assigns it exactly twice (`food` by the inherited `Food`
constructor, then `crunch`, the value it keeps); after construction no call assigns it:
any number of calls of `Food::eatMe` on a `Food`, and any sequence of calls of
`Cookie::eatMe` and of the inherited `Food::eatMe` on a `Cookie`, leave the object, its
`makesSound` and the history of assignments as they were. -/
theorem makesSound_assignments (f : Food) (c : Cookie) (cout : String) (N : Nat)
    (cs : List Call) :
    Food.ctor.stores = ["food"] ∧ Food.ctor.makesSound = "food" ∧
      Cookie.ctor.stores = ["food", "crunch"] ∧ Cookie.ctor.makesSound = "crunch" ∧
      (Food.callEatMe^[N] (f, cout)).1 = f ∧
      (Cookie.calls (c, cout) cs).1 = c :=
  ⟨by decide, by decide, by decide, by decide, food_iterate_fst N (f, cout),
    cookie_calls_fst cs (c, cout)⟩

end mylibrary
